import Mathlib

/-!
Verification of the main-process supervisory layer of the Covenantrix desktop
shell (Electron main/renderer split).  The definitions below are a shallow
embedding of the code in `src/main.js`, `src/preload.js` and
`src/renderer/update-manager.js`:

* `PythonBackend` (src/main.js, class `PythonBackend`): process supervision —
  memoized `start()`, the `/health` polling loop `waitForReady`, and `stop()`.
* the `app.whenReady` startup handler (src/main.js 233-258).
* the auto-updater flags and IPC handlers (src/main.js 447-600).
* the renderer-side `UpdateManager.checkForUpdates` guard
  (src/renderer/update-manager.js 67-90).
* the preload updater-message listener registration (src/preload.js 27-32).

JavaScript runs single-threaded; asynchronous functions are embedded as state
transformers whose suspension points are made explicit where interleaving
matters (the renderer `isChecking` guard), and as plain functions from an
environment describing the I/O outcomes (fetch responses, path checks)
otherwise.  Fallible operations return `Except`.
-/

set_option linter.unusedVariables false

namespace Covenantrix

/-- Decidable equality for `Except`, needed so concrete runs of the embedded
fallible operations can be checked by `decide`. -/
instance {ε α : Type} [DecidableEq ε] [DecidableEq α] : DecidableEq (Except ε α) := fun x y =>
  match x, y with
  | .error a, .error b =>
    match decEq a b with
    | isTrue h => isTrue (congrArg Except.error h)
    | isFalse h => isFalse (fun hh => h (Except.error.inj hh))
  | .ok a, .ok b =>
    match decEq a b with
    | isTrue h => isTrue (congrArg Except.ok h)
    | isFalse h => isFalse (fun hh => h (Except.ok.inj hh))
  | .error a, .ok b => isFalse (fun hh => Except.noConfusion hh)
  | .ok a, .error b => isFalse (fun hh => Except.noConfusion hh)

/-! ## Health gate: `PythonBackend.waitForReady` (src/main.js 141-167)

One polling attempt either throws inside `fetch` (network error — the backend
is not listening yet), or yields an HTTP response with a status code; if the
status was inspected the code then awaits `response.json()`, which can itself
reject when the body is not valid JSON.  `jsonOk` records whether
`response.json()` resolves. -/

/-- Outcome of one `fetch('http://127.0.0.1:8000/health')` attempt. -/
inductive AttemptOutcome where
  | netError
  | response (status : Nat) (jsonOk : Bool)
deriving DecidableEq

/-- `const maxRetries = 30` (src/main.js 142). -/
def maxRetries : Nat := 30

/-- `const retryInterval = 1000` milliseconds (src/main.js 143). -/
def retryIntervalMs : Nat := 1000

/-- `response.ok`: status in the 2xx range. -/
def statusOk (s : Nat) : Bool := decide (200 ≤ s) && decide (s < 300)

/-- One loop iteration reaches `return true` exactly when the fetch resolved,
`response.ok` held, and `await response.json()` did not reject (a rejection is
swallowed by the surrounding `catch` and the loop continues). -/
def attemptSucceeds : AttemptOutcome → Bool
  | .netError => false
  | .response s jsonOk => statusOk s && jsonOk

/-- The only error `waitForReady` throws: the 30-second startup timeout. -/
inductive HealthErr where
  | timeout
deriving DecidableEq

/-- The polling loop from attempt index `i` with `fuel` iterations left.
Returns the result together with the number of 1000 ms sleeps performed: the
code sleeps after every failed attempt (including the last one, before
throwing) and returns immediately on success. -/
def waitForReadyAux (att : Nat → AttemptOutcome) : Nat → Nat → Except HealthErr Bool × Nat
  | _, 0 => (.error .timeout, 0)
  | i, fuel + 1 =>
    if attemptSucceeds (att i) then (.ok true, 0)
    else
      let r := waitForReadyAux att (i + 1) fuel
      (r.1, r.2 + 1)

/-- `PythonBackend.waitForReady`: up to `maxRetries` attempts starting from
attempt 0.  `att i` is the outcome the environment gives attempt `i`. -/
def waitForReady (att : Nat → AttemptOutcome) : Except HealthErr Bool × Nat :=
  waitForReadyAux att 0 maxRetries

/-! ## `PythonBackend` state and `start` (src/main.js 18-139) -/

/-- Errors a start operation can reject with: `getPythonPath` /
`getBackendPath` throw when the executable or script is missing from disk
(src/main.js 47-50, 67-70); `waitForReady` throws the startup timeout. -/
inductive StartErr where
  | missingPython
  | missingScript
  | healthTimeout
deriving DecidableEq

/-- The environment one `_startInternal` run executes against: whether the
interpreter and script path checks pass, and the health responses. -/
structure StartEnv where
  pythonPathOk : Bool
  scriptPathOk : Bool
  health : Nat → AttemptOutcome

/-- `PythonBackend._startInternal` (src/main.js 84-139): resolve the two
paths (throwing if missing, before any spawn), spawn the process, then block
on `waitForReady`; the `catch` rethrows.  Returns the settled outcome of the
returned promise together with whether a process was spawned. -/
def startInternal (env : StartEnv) : Except StartErr Bool × Bool :=
  if !env.pythonPathOk then (.error .missingPython, false)
  else if !env.scriptPathOk then (.error .missingScript, false)
  else
    match (waitForReady env.health).1 with
    | .ok _ => (.ok true, true)
    | .error _ => (.error .healthTimeout, true)

/-- The fields of the `PythonBackend` instance (src/main.js 19-23), plus a
ghost counter of how many processes were ever spawned.  `startupPromise` holds
the settled outcome of the memoized start operation (`none` = no operation
memoized); because the synchronous prefix of `_startInternal` (path checks,
spawn, handler registration) runs atomically up to the first `await` and the
promise is assigned before control returns to the event loop, any other
`start()` call observes either `none` or the fully recorded operation. -/
structure PB where
  processSet : Bool
  isReady : Bool
  startupPromise : Option (Except StartErr Bool)
  spawnCount : Nat
deriving DecidableEq

/-- The freshly constructed backend (src/main.js 19-23, 190). -/
def PB.init : PB := ⟨false, false, none, 0⟩

/-- `PythonBackend.start` (src/main.js 75-82): if `startupPromise` is set,
return it unchanged; otherwise run `_startInternal`, memoize its outcome
(successful or rejected — the `catch` at src/main.js 134-138 does not clear
the memo), set `isReady` (true on success, false on the catch path), record
the spawned process. -/
def PB.start (env : StartEnv) (s : PB) : Except StartErr Bool × PB :=
  match s.startupPromise with
  | some r => (r, s)
  | none =>
    let ri := startInternal env
    (ri.1,
      { processSet := s.processSet || ri.2
        isReady := match ri.1 with | .ok _ => true | .error _ => false
        startupPromise := some ri.1
        spawnCount := s.spawnCount + (if ri.2 then 1 else 0) })

/-- State clearing performed by `PythonBackend.stop` (src/main.js 183-185):
`isReady`, `process` and `startupPromise` are always reset.  (The signalling
half of `stop` is modelled separately below as `stopSync`/`stopTimerFire`.) -/
def PB.stop (s : PB) : PB :=
  { processSet := false, isReady := false, startupPromise := none, spawnCount := s.spawnCount }

/-- `n` sequential `start()` calls: the list of outcomes and the final state. -/
def PB.runStarts (env : StartEnv) : Nat → PB → List (Except StartErr Bool) × PB
  | 0, s => ([], s)
  | n + 1, s =>
    let rs := PB.start env s
    let rest := PB.runStarts env n rs.2
    (rs.1 :: rest.1, rest.2)

/-! ## Shutdown signalling: `PythonBackend.stop` (src/main.js 169-186)

`stop()` runs synchronously: it sends SIGTERM, arms a 5-second `setTimeout`
whose callback re-reads `this.process`, and then immediately nulls
`this.process`.  Node's `ChildProcess.killed` flag records that a signal was
successfully *sent* via `kill()` — it does not mean the process exited. -/

inductive Signal where
  | sigterm
  | sigkill
deriving DecidableEq

/-- The world `stop()` acts on: the one child process (whether it is actually
running, its `killed` flag, and whether it honours SIGTERM) and the
supervisor's own fields. -/
structure StopWorld where
  childRunning : Bool
  childKilledFlag : Bool
  ignoresSigterm : Bool
  procRefSet : Bool
  isReady : Bool
  startupPromiseSet : Bool
  timerArmed : Bool
deriving DecidableEq

/-- `this.process.kill(sig)`: sets the `killed` flag; SIGKILL terminates the
child unconditionally, SIGTERM terminates it only if it does not ignore the
signal. -/
def sendSignal (sig : Signal) (w : StopWorld) : StopWorld :=
  { w with
    childKilledFlag := true
    childRunning :=
      match sig with
      | .sigkill => false
      | .sigterm => w.childRunning && w.ignoresSigterm }

/-- The synchronous body of `stop()` (src/main.js 169-186): if a process
handle is set and `killed` is still false, send SIGTERM and arm the 5 s force
kill timer; then unconditionally clear `isReady`, `this.process` and
`this.startupPromise`. -/
def stopSync (w : StopWorld) : StopWorld :=
  let w1 :=
    if w.procRefSet && !w.childKilledFlag then
      { sendSignal .sigterm w with timerArmed := true }
    else w
  { w1 with isReady := false, procRefSet := false, startupPromiseSet := false }

/-- The `setTimeout` callback firing 5 seconds later (src/main.js 175-180):
it re-reads `this.process` and its `killed` flag at fire time and sends
SIGKILL only if the handle is still set and no signal was ever sent. -/
def stopTimerFire (w : StopWorld) : StopWorld :=
  if w.procRefSet && !w.childKilledFlag then
    sendSignal .sigkill { w with timerArmed := false }
  else { w with timerArmed := false }

/-! ## Application startup: the `app.whenReady` handler (src/main.js 233-258) -/

/-- Observable outcome of the startup sequence.  `exitStatus` is the process
exit status when the application terminates: the failure branch calls
`app.quit()`, Electron's normal shutdown, whose exit status is 0 (a non-zero
status would require `app.exit(code)`, which the code never calls). -/
structure AppOutcome where
  windowCreated : Bool
  errorDialogShown : Bool
  quitCalled : Bool
  exitStatus : Option Nat
deriving DecidableEq

/-- The `app.whenReady().then(...)` handler: `await backend.start()`, then
create the window; on any rejection show the `Startup Error` dialog and call
`app.quit()` — `createWindow` is never reached. -/
def appWhenReady (env : StartEnv) : AppOutcome × PB :=
  let rs := PB.start env PB.init
  match rs.1 with
  | .ok _ =>
    ({ windowCreated := true, errorDialogShown := false, quitCalled := false,
       exitStatus := none }, rs.2)
  | .error _ =>
    ({ windowCreated := false, errorDialogShown := true, quitCalled := true,
       exitStatus := some 0 }, rs.2)

/-- `true` when the outcome is a terminated application with a non-zero exit
status. -/
def terminatedNonZero (o : AppOutcome) : Bool :=
  match o.exitStatus with
  | some n => decide (n ≠ 0)
  | none => false

/-! ## Backend process event handlers (src/main.js 106-114)

The `error` and `exit` handlers registered on the spawned process log and set
`this.isReady = false`; nothing else.  They are modelled on the whole host
world so the frame (window, application liveness, remaining supervisor
fields) is explicit. -/

/-- The host-application world the crash handlers could in principle touch. -/
structure HostWorld where
  backendProcessSet : Bool
  backendReady : Bool
  backendStartupPromiseSet : Bool
  windowOpen : Bool
  appQuitCalled : Bool
deriving DecidableEq

/-- `this.process.on('error', ...)` (src/main.js 106-109). -/
def onProcessError (err : String) (w : HostWorld) : HostWorld :=
  { w with backendReady := false }

/-- `this.process.on('exit', ...)` (src/main.js 111-114). -/
def onProcessExit (code : Option Int) (signal : Option String) (w : HostWorld) : HostWorld :=
  { w with backendReady := false }

/-! ## Bridge command handlers (src/main.js 279-287, 347-391)

A handler body awaits `fetch` (which may reject), then `response.json()`
(which may reject), inside one `try`; every rejection is mapped by the `catch`
to `{success:false, error:error.message}`. -/

/-- A parsed JSON body; `detail` is the optional `data.detail` field that
`upload-document` reads from error responses. -/
structure JsonDoc where
  raw : String
  detail : Option String
deriving DecidableEq

/-- An HTTP response: status code and the JSON body, `none` when
`response.json()` rejects (body not valid JSON). -/
structure HttpResponse where
  status : Nat
  body : Option JsonDoc
deriving DecidableEq

/-- Stand-in for the `error.message` of a rejected `response.json()`. -/
def jsonParseErrMsg : String := "Unexpected end of JSON input"

/-- The uniform bridge envelope `{success, data?, error?}`. -/
structure CommandResult where
  success : Bool
  data : Option JsonDoc
  error : Option String
deriving DecidableEq

/-- The envelope shape: a success carries data and no error, a failure
carries an error message and no data. -/
def envelopeOk (c : CommandResult) : Bool :=
  (c.success && c.data.isSome && c.error.isNone) ||
  (!c.success && c.data.isNone && c.error.isSome)

/-- `ipcMain.handle('test-backend')` (src/main.js 279-287): fetch `/health`,
parse the body, return `{success:true, data}` — the response status is never
inspected; any rejection becomes `{success:false, error}`. -/
def testBackendHandler : Except String HttpResponse → CommandResult
  | .error m => ⟨false, none, some m⟩
  | .ok r =>
    match r.body with
    | none => ⟨false, none, some jsonParseErrMsg⟩
    | some d => ⟨true, some d, none⟩

/-- `ipcMain.handle('upload-document')` (src/main.js 347-391): build the
multipart body, fetch, parse the JSON body (before the `ok` check), then
branch on `response.ok`: 2xx yields `{success:true, data}`, anything else
yields `{success:false, error: data.detail || 'Upload failed'}`. -/
def uploadDocumentHandler : Except String HttpResponse → CommandResult
  | .error m => ⟨false, none, some m⟩
  | .ok r =>
    match r.body with
    | none => ⟨false, none, some jsonParseErrMsg⟩
    | some d =>
      if statusOk r.status then ⟨true, some d, none⟩
      else ⟨false, none, some (d.detail.getD "Upload failed")⟩

/-! ## Auto-updater flags, events and IPC handlers (src/main.js 447-600) -/

/-- The updater-message event types the main process emits
(src/main.js 463-531), one per `autoUpdater.on` handler. -/
inductive UpdEvent where
  | checkingForUpdate
  | updateAvailable
  | updateNotAvailable
  | errorEvent (msg : String)
  | downloadProgress (percent : Nat)
  | updateDownloaded
deriving DecidableEq

/-- The module-level updater flags (src/main.js 448-449). -/
structure UpdFlags where
  updateAvailable : Bool
  updateDownloaded : Bool
deriving DecidableEq

/-- Initial flag values: `let updateDownloaded = false; let updateAvailable
= false`. -/
def UpdFlags.init : UpdFlags := ⟨false, false⟩

/-- Flag updates performed by the `autoUpdater.on` handlers: only
`update-available`, `update-not-available` and `update-downloaded` touch the
flags; `updateDownloaded` is never reset. -/
def applyUpdEvent (f : UpdFlags) : UpdEvent → UpdFlags
  | .updateAvailable => { f with updateAvailable := true }
  | .updateNotAvailable => { f with updateAvailable := false }
  | .updateDownloaded => { f with updateDownloaded := true }
  | _ => f

/-- Fold a stream of updater events over the flags. -/
def applyUpdEvents (f : UpdFlags) (evs : List UpdEvent) : UpdFlags :=
  evs.foldl applyUpdEvent f

/-- The seven update statuses of the spec's state machine, as displayed by
the repository's own React hook (src/src/renderer/hooks, `useAppUpdater`). -/
inductive UpdateStatus where
  | idle
  | checking
  | available
  | notAvailable
  | downloading
  | downloaded
  | errored
deriving DecidableEq

/-- How the React hook's `handleUpdaterMessage` maps each pushed event to a
status (each case unconditionally sets the status). -/
def statusOfEvent : UpdEvent → UpdateStatus
  | .checkingForUpdate => .checking
  | .updateAvailable => .available
  | .updateNotAvailable => .notAvailable
  | .errorEvent _ => .errored
  | .downloadProgress _ => .downloading
  | .updateDownloaded => .downloaded

/-- The update status after a stream of events: the status set by the last
event, `idle` before any event (the hook's initial state). -/
def statusAfter (evs : List UpdEvent) : UpdateStatus :=
  evs.foldl (fun _ e => statusOfEvent e) .idle

/-- Result shape of the updater IPC handlers (src/main.js 534-585):
`{success, error?, message?, currentVersion?}`. -/
structure UpdCmdResult where
  success : Bool
  error : Option String
  message : Option String
  currentVersion : Option String
deriving DecidableEq

/-- `ipcMain.handle('check-for-updates')` (src/main.js 534-549): in dev an
explicit unavailable error; otherwise call `autoUpdater.checkForUpdates()`
(one outbound provider request, counted in the second component) and
acknowledge, mapping a synchronous throw from the call to an error result. -/
def checkForUpdatesHandler (isDev : Bool) (providerCall : Except String Unit)
    (currentVersion : String) : UpdCmdResult × Nat :=
  if isDev then
    (⟨false, some "Updates not available in development mode", none, none⟩, 0)
  else
    match providerCall with
    | .ok _ => (⟨true, none, some "Checking for updates...", some currentVersion⟩, 1)
    | .error m => (⟨false, some m, none, none⟩, 1)

/-- `ipcMain.handle('download-update')` (src/main.js 551-567): dev-mode
error; error when the `updateAvailable` flag is unset; otherwise an immediate
success acknowledgement. -/
def downloadUpdateHandler (isDev : Bool) (f : UpdFlags) : UpdCmdResult :=
  if isDev then ⟨false, some "Updates not available in development mode", none, none⟩
  else if !f.updateAvailable then ⟨false, some "No update available to download", none, none⟩
  else ⟨true, none, some "Update download started...", none⟩

/-- `ipcMain.handle('install-update')` (src/main.js 569-585): dev-mode
error; error when the `updateDownloaded` flag is unset; otherwise
`autoUpdater.quitAndInstall()` (the Boolean component) and success. -/
def installUpdateHandler (isDev : Bool) (f : UpdFlags) : UpdCmdResult × Bool :=
  if isDev then (⟨false, some "Updates not available in development mode", none, none⟩, false)
  else if !f.updateDownloaded then (⟨false, some "No update downloaded yet", none, none⟩, false)
  else (⟨true, none, none, none⟩, true)

/-! ## Renderer update manager (src/renderer/update-manager.js 67-90)

`checkForUpdates` is `async`; its synchronous prefix runs the `isChecking`
guard, sets the flag, and issues the IPC call `window.electronAPI
.checkForUpdates()`; the `finally` block clears the flag when the awaited
call settles.  The method's value is `undefined` on every path. -/

/-- Renderer-side state: the guard flag and a ghost count of IPC
`check-for-updates` invocations issued (each of which triggers exactly one
provider request in production, per `checkForUpdatesHandler`). -/
structure UMState where
  isChecking : Bool
  ipcCalls : Nat
deriving DecidableEq

/-- The synchronous prefix of `UpdateManager.checkForUpdates`: a call that
finds `isChecking` set returns immediately (first component `false`, no IPC
call, state untouched); otherwise it sets the flag and issues the IPC call. -/
def umCheckBegin (s : UMState) : Bool × UMState :=
  if s.isChecking then (false, s)
  else (true, { isChecking := true, ipcCalls := s.ipcCalls + 1 })

/-- The `finally` block running when the awaited IPC call settles. -/
def umCheckFinish (s : UMState) : UMState := { s with isChecking := false }

/-! ## Preload updater-message channel (src/preload.js 27-32)

`onUpdaterMessage(cb)` calls `ipcRenderer.on('updater-message', wrapper)`,
which *appends* a listener; `removeUpdaterListener()` calls
`removeAllListeners('updater-message')`.  Listeners are identified by the
order-preserving list of registered callbacks. -/

/-- `onUpdaterMessage` (src/preload.js 27-29): `ipcRenderer.on` appends the
wrapped callback to the channel's listener list. -/
def onUpdaterMessage (cb : Nat) (ls : List Nat) : List Nat := ls ++ [cb]

/-- `removeUpdaterListener` (src/preload.js 30-32):
`ipcRenderer.removeAllListeners('updater-message')` empties the list. -/
def removeUpdaterListener (ls : List Nat) : List Nat := []

/-- Delivering one `updater-message` event with payload `d`: every
registered wrapper fires, invoking its callback with the payload; the result
is the list of (callback, payload) invocations in registration order. -/
def deliverUpdaterMessage (ls : List Nat) (d : Nat) : List (Nat × Nat) :=
  ls.map (fun cb => (cb, d))

/-! ## Concrete environments and states used to evaluate the model -/

/-- Every health attempt returns HTTP 200 but with a body that is not valid
JSON (`response.json()` rejects). -/
def attBad : Nat → AttemptOutcome := fun _ => .response 200 false

/-- The backend answers on the third attempt (index 2) after two connection
errors. -/
def attThird : Nat → AttemptOutcome := fun i => if i = 2 then .response 200 true else .netError

/-- The backend never answers: every fetch rejects. -/
def attNever : Nat → AttemptOutcome := fun _ => .netError

/-- Paths resolve and the first health attempt already succeeds. -/
def envHealthy : StartEnv := ⟨true, true, fun _ => .response 200 true⟩

/-- Paths resolve but the health endpoint never answers. -/
def envTimeout : StartEnv := ⟨true, true, attNever⟩

/-- The backend script is missing from disk. -/
def envNoScript : StartEnv := ⟨true, false, attNever⟩

/-- A backend whose start operation is memoized as successful. -/
def pbMemo : PB := ⟨true, true, some (.ok true), 1⟩

/-- A running child that ignores SIGTERM, about to be stopped. -/
def stubbornStop : StopWorld := ⟨true, false, true, true, true, true, false⟩

/-- A running child that honours SIGTERM, about to be stopped. -/
def cooperativeStop : StopWorld := ⟨true, false, false, true, true, true, false⟩

/-- The ordinary successful update flow: the provider reports an update and
the automatic download completes. -/
def downloadedTrace : List UpdEvent := [UpdEvent.updateAvailable, UpdEvent.updateDownloaded]

/-- A 500 response whose body is valid JSON carrying a `detail` field. -/
def resp500 : HttpResponse := ⟨500, some ⟨"detail body", some "Internal Server Error"⟩⟩

/-- Renderer update manager with no check in flight. -/
def umIdle : UMState := ⟨false, 0⟩

/-- Renderer update manager with a check in flight. -/
def umBusy : UMState := ⟨true, 5⟩

/-! ## Helper lemmas -/

/-- A memoized start operation short-circuits `start()`: the recorded outcome
is returned and the state (spawn count included) is untouched. -/
lemma PB.start_memo {env : StartEnv} {s : PB} {r : Except StartErr Bool}
    (h : s.startupPromise = some r) : PB.start env s = (r, s) := by
  unfold PB.start
  rw [h]

/-- After any `start()` call the memo holds the outcome just returned. -/
lemma PB.start_records (env : StartEnv) (s : PB) :
    (PB.start env s).2.startupPromise = some (PB.start env s).1 := by
  unfold PB.start
  cases h : s.startupPromise with
  | none => simp
  | some r => simpa using h

/-- A single `start()` from the fresh backend spawns at most one process. -/
lemma PB.start_init_spawn_le_one (env : StartEnv) :
    (PB.start env PB.init).2.spawnCount ≤ 1 := by
  unfold PB.start PB.init
  cases h : (startInternal env).2 <;> simp [h]

/-- Once the memo is set, any further sequence of `start()` calls returns the
memoized outcome over and over and leaves the state untouched. -/
lemma PB.runStarts_of_memo (env : StartEnv) :
    ∀ (n : Nat) (s : PB) (r : Except StartErr Bool), s.startupPromise = some r →
      PB.runStarts env n s = (List.replicate n r, s) := by
  intro n
  induction n with
  | zero => intro s r h; rfl
  | succ m ih =>
    intro s r h
    unfold PB.runStarts
    rw [PB.start_memo h]
    simp [ih s r h, List.replicate_succ]

/-- If every attempt the remaining fuel allows fails, the loop times out
after sleeping once per attempt. -/
lemma waitForReadyAux_timeout (att : Nat → AttemptOutcome) :
    ∀ (fuel i : Nat), (∀ j, j < fuel → attemptSucceeds (att (i + j)) = false) →
      waitForReadyAux att i fuel = (.error .timeout, fuel) := by
  intro fuel
  induction fuel with
  | zero => intro i h; rfl
  | succ f ih =>
    intro i h
    have h0 : attemptSucceeds (att i) = false := by simpa using h 0 (Nat.succ_pos f)
    have hrec : waitForReadyAux att (i + 1) f = (.error .timeout, f) := by
      refine ih (i + 1) (fun j hj => ?_)
      have := h (j + 1) (Nat.succ_lt_succ hj)
      have harith : i + (j + 1) = i + 1 + j := by omega
      rwa [harith] at this
    unfold waitForReadyAux
    rw [h0]
    simp [hrec]

/-- If attempt `i + k` is the first success among the remaining attempts, the
loop returns `true` after `k` sleeps. -/
lemma waitForReadyAux_success (att : Nat → AttemptOutcome) :
    ∀ (k fuel i : Nat), k < fuel → attemptSucceeds (att (i + k)) = true →
      (∀ j, j < k → attemptSucceeds (att (i + j)) = false) →
      waitForReadyAux att i fuel = (.ok true, k) := by
  intro k
  induction k with
  | zero =>
    intro fuel i hlt hsucc hfail
    cases fuel with
    | zero => omega
    | succ f =>
      have h0 : attemptSucceeds (att i) = true := by simpa using hsucc
      unfold waitForReadyAux
      rw [h0]
      simp
  | succ m ih =>
    intro fuel i hlt hsucc hfail
    cases fuel with
    | zero => omega
    | succ f =>
      have h0 : attemptSucceeds (att i) = false := by simpa using hfail 0 (Nat.succ_pos m)
      have hrec : waitForReadyAux att (i + 1) f = (.ok true, m) := by
        refine ih f (i + 1) (by omega) ?_ ?_
        · have harith : i + (m + 1) = i + 1 + m := by omega
          rwa [harith] at hsucc
        · intro j hj
          have := hfail (j + 1) (Nat.succ_lt_succ hj)
          have harith : i + (j + 1) = i + 1 + j := by omega
          rwa [harith] at this
      unfold waitForReadyAux
      rw [h0]
      simp [hrec]

/-- `startInternal` with valid paths and a dead health endpoint rejects with
the health timeout after spawning. -/
lemma startInternal_timeout {env : StartEnv} (hp : env.pythonPathOk = true)
    (hs : env.scriptPathOk = true)
    (hh : ∀ j, j < maxRetries → attemptSucceeds (env.health j) = false) :
    startInternal env = (.error .healthTimeout, true) := by
  have hw : waitForReady env.health = (.error .timeout, maxRetries) := by
    unfold waitForReady
    exact waitForReadyAux_timeout env.health maxRetries 0 (fun j hj => by simpa using hh j hj)
  unfold startInternal
  rw [hp, hs, hw]
  simp

/-! ## Claim theorems -/

/-- C1: `start()` is idempotent.  First conjunct: while a start operation is
memoized (in flight or settled), a further `start()` call returns that same
operation's outcome and changes nothing — in particular it spawns no second
process (the spawn count is part of the returned, unchanged state).  Second
conjunct: any sequence of `n + 1` sequential `start()` calls from the fresh
backend yields the first call's outcome every time, ends in the first call's
state, and spawns at most one process in total. -/
theorem start_idempotent_single_spawn :
    (∀ (env : StartEnv) (s : PB) (r : Except StartErr Bool),
      s.startupPromise = some r → PB.start env s = (r, s)) ∧
    (∀ (env : StartEnv) (n : Nat),
      (PB.runStarts env (n + 1) PB.init).1 =
        List.replicate (n + 1) (PB.start env PB.init).1 ∧
      (PB.runStarts env (n + 1) PB.init).2 = (PB.start env PB.init).2 ∧
      (PB.runStarts env (n + 1) PB.init).2.spawnCount ≤ 1) := by
  constructor
  · intro env s r h
    exact PB.start_memo h
  · intro env n
    have hmemo := PB.start_records env PB.init
    have hrun : PB.runStarts env (n + 1) PB.init =
        ((PB.start env PB.init).1 :: List.replicate n (PB.start env PB.init).1,
          (PB.start env PB.init).2) := by
      unfold PB.runStarts
      simp [PB.runStarts_of_memo env n (PB.start env PB.init).2 (PB.start env PB.init).1 hmemo]
    refine ⟨?_, ?_, ?_⟩
    · rw [hrun, List.replicate_succ]
    · rw [hrun]
    · rw [hrun]
      exact PB.start_init_spawn_le_one env

/-- Witness for C1: a backend with a memoized successful start returns that
outcome unchanged, and three sequential `start()` calls from the fresh
backend spawn at most one process. -/
theorem start_idempotent_single_spawn_witness :
    PB.start envTimeout pbMemo = (.ok true, pbMemo) ∧
    (PB.runStarts envHealthy 3 PB.init).2.spawnCount ≤ 1 :=
  ⟨start_idempotent_single_spawn.1 envTimeout pbMemo (.ok true) rfl,
   (start_idempotent_single_spawn.2 envHealthy 2).2.2⟩

/-- C2 counterexample: the claim says `waitForReady` returns true on the
first attempt whose response status is 2xx.  In `attBad` every attempt
returns HTTP 200 — a 2xx status — but with a body on which
`response.json()` rejects; the rejection is swallowed by the loop's `catch`
and the code polls on, exhausting all 30 attempts and throwing the timeout
instead of returning true. -/
theorem health_gate_2xx_counterexample :
    attBad 0 = AttemptOutcome.response 200 false ∧
    statusOk 200 = true ∧
    waitForReady attBad = (Except.error HealthErr.timeout, maxRetries) :=
  ⟨rfl, rfl, by decide⟩

/-- C2 amended: success requires the 2xx status *and* a JSON-parseable body
(`attemptSucceeds`), because the handler awaits `response.json()` before
returning.  First conjunct: the first such attempt, at index `k`, makes
`waitForReady` return true after `k` one-second sleeps (≈ `k × 1000` ms).
Second: if all 30 attempts fail, it throws the timeout after 30 sleeps.
Third: with valid paths and a never-succeeding endpoint, `start()` rejects
with the health timeout and the startup sequence creates no window and shows
the fatal dialog. -/
theorem health_gate_bounded_polling :
    (∀ (att : Nat → AttemptOutcome) (k : Nat), k < maxRetries →
      attemptSucceeds (att k) = true →
      (∀ j, j < k → attemptSucceeds (att j) = false) →
      waitForReady att = (.ok true, k)) ∧
    (∀ (att : Nat → AttemptOutcome),
      (∀ j, j < maxRetries → attemptSucceeds (att j) = false) →
      waitForReady att = (.error .timeout, maxRetries)) ∧
    (∀ (env : StartEnv), env.pythonPathOk = true → env.scriptPathOk = true →
      (∀ j, j < maxRetries → attemptSucceeds (env.health j) = false) →
      (PB.start env PB.init).1 = .error .healthTimeout ∧
      (appWhenReady env).1.windowCreated = false ∧
      (appWhenReady env).1.errorDialogShown = true) := by
  refine ⟨?_, ?_, ?_⟩
  · intro att k hk hsucc hfail
    unfold waitForReady
    exact waitForReadyAux_success att k maxRetries 0 hk (by simpa using hsucc)
      (fun j hj => by simpa using hfail j hj)
  · intro att hfail
    unfold waitForReady
    exact waitForReadyAux_timeout att maxRetries 0 (fun j hj => by simpa using hfail j hj)
  · intro env hp hs hh
    have hsi : startInternal env = (.error .healthTimeout, true) :=
      startInternal_timeout hp hs hh
    have hstart : PB.start env PB.init = (.error .healthTimeout,
        { processSet := true, isReady := false,
          startupPromise := some (.error .healthTimeout), spawnCount := 1 }) := by
      unfold PB.start PB.init
      rw [hsi]
      rfl
    refine ⟨by rw [hstart], ?_, ?_⟩ <;>
      · unfold appWhenReady
        rw [hstart]

/-- Witness for C2: with the backend answering on the third attempt (two
connection errors, then 200 with a JSON body) `waitForReady` returns true
after 2 sleeps; with a dead endpoint it times out, `start()` rejects and no
window is created. -/
theorem health_gate_bounded_polling_witness :
    waitForReady attThird = (.ok true, 2) ∧
    waitForReady attNever = (.error .timeout, maxRetries) ∧
    (PB.start envTimeout PB.init).1 = .error .healthTimeout ∧
    (appWhenReady envTimeout).1.windowCreated = false :=
  ⟨health_gate_bounded_polling.1 attThird 2 (by decide) (by decide) (by decide),
   health_gate_bounded_polling.2.1 attNever (by decide),
   (health_gate_bounded_polling.2.2 envTimeout rfl rfl (by decide)).1,
   (health_gate_bounded_polling.2.2 envTimeout rfl rfl (by decide)).2.1⟩

/-- C10: a rejected start is memoized exactly like a successful one.  First
conjunct: with a rejected outcome memoized, every further `start()` returns
the same rejection and changes nothing — no new spawn is attempted.  Second:
a first `start()` whose internal run rejects memoizes that rejection (and
leaves `isReady` false).  Third: `stop()` clears the memo, so a later
`start()` runs afresh. -/
theorem failed_start_memoized :
    (∀ (env : StartEnv) (s : PB) (e : StartErr),
      s.startupPromise = some (.error e) → PB.start env s = (.error e, s)) ∧
    (∀ (env : StartEnv) (e : StartErr) (sp : Bool),
      startInternal env = (.error e, sp) →
      (PB.start env PB.init).1 = .error e ∧
      (PB.start env PB.init).2.startupPromise = some (.error e) ∧
      (PB.start env PB.init).2.isReady = false) ∧
    (∀ s : PB, (PB.stop s).startupPromise = none) := by
  refine ⟨?_, ?_, ?_⟩
  · intro env s e h
    exact PB.start_memo h
  · intro env e sp h
    unfold PB.start PB.init
    rw [h]
    exact ⟨rfl, rfl, rfl⟩
  · intro s
    rfl

/-- Witness for C10: a start against a missing backend script rejects with
`missingScript` and memoizes that rejection; a backend carrying a memoized
rejection returns it unchanged; `stop()` clears the memo. -/
theorem failed_start_memoized_witness :
    (PB.start envNoScript PB.init).1 = .error .missingScript ∧
    PB.start envNoScript ⟨false, false, some (.error .missingScript), 0⟩ =
      (.error .missingScript, ⟨false, false, some (.error .missingScript), 0⟩) ∧
    (PB.stop pbMemo).startupPromise = none :=
  ⟨(failed_start_memoized.2.1 envNoScript .missingScript false rfl).1,
   failed_start_memoized.1 envNoScript ⟨false, false, some (.error .missingScript), 0⟩
     .missingScript rfl,
   failed_start_memoized.2.2 pbMemo⟩

/-- C3 evaluated at the failing input: a running child that ignores SIGTERM.
`stop()` sends SIGTERM and arms the 5-second force-kill timer, but then
synchronously nulls `this.process`; when the timer fires it finds the handle
cleared (and the `killed` flag already set by the SIGTERM send), so the
SIGKILL branch is dead and the child is still running after the grace window
— and would be even if the handle had been kept, because `killed` records
signal *sending*, not exit.  A cooperating child does stop, so the guarantee
holds only for children that honour SIGTERM, contradicting the claim's
"regardless". -/
theorem stop_force_kill_never_fires :
    (stopTimerFire (stopSync stubbornStop)).childRunning = true ∧
    (stopSync stubbornStop).procRefSet = false ∧
    (stopSync stubbornStop).childKilledFlag = true ∧
    (stopTimerFire { stopSync stubbornStop with procRefSet := true }).childRunning = true ∧
    (stopTimerFire (stopSync cooperativeStop)).childRunning = false := by
  decide

/-- C4 counterexample: with valid paths and a dead health endpoint the
startup sequence creates no window and shows the fatal dialog — but it
terminates via `app.quit()`, whose exit status is 0, not the non-zero status
the claim asserts. -/
theorem startup_failure_exit_zero_counterexample :
    (appWhenReady envTimeout).1.windowCreated = false ∧
    (appWhenReady envTimeout).1.errorDialogShown = true ∧
    (appWhenReady envTimeout).1.quitCalled = true ∧
    (appWhenReady envTimeout).1.exitStatus = some 0 ∧
    terminatedNonZero (appWhenReady envTimeout).1 = false := by
  decide

/-- C4 amended: whenever `start()` rejects during application startup, no UI
window is created, the fatal `Startup Error` dialog is shown, and the
application terminates via `app.quit()` — with the default exit status 0, not
a non-zero status. -/
theorem startup_failure_fatal_dialog_quit :
    ∀ (env : StartEnv) (e : StartErr), (PB.start env PB.init).1 = .error e →
      (appWhenReady env).1 =
        { windowCreated := false, errorDialogShown := true, quitCalled := true,
          exitStatus := some 0 } ∧
      terminatedNonZero (appWhenReady env).1 = false := by
  intro env e h
  have houtcome : (appWhenReady env).1 =
      { windowCreated := false, errorDialogShown := true, quitCalled := true,
        exitStatus := some 0 } := by
    unfold appWhenReady
    simp only []
    rw [h]
  exact ⟨houtcome, by rw [houtcome]; rfl⟩

/-- Witness for C4: the amended behaviour at the concrete health-timeout
environment. -/
theorem startup_failure_fatal_dialog_quit_witness :
    (appWhenReady envTimeout).1 =
      { windowCreated := false, errorDialogShown := true, quitCalled := true,
        exitStatus := some 0 } ∧
    terminatedNonZero (appWhenReady envTimeout).1 = false :=
  startup_failure_fatal_dialog_quit envTimeout .healthTimeout (by decide)

/-- C5: the renderer `isChecking` guard deduplicates overlapping
`checkForUpdates()` calls.  First conjunct: a call arriving while a check is
in flight is a no-op — it proceeds nowhere, issues no IPC call and leaves
the state untouched (and, like every call, its settled value is `undefined`,
which is also the first operation's eventual value).  Second conjunct: the
full overlap scenario — first call proceeds, duplicate is rejected and
changes nothing, and after the first call's `finally` exactly one IPC
`check-for-updates` invocation was issued and the guard is clear.  Third
conjunct: in production each such IPC invocation issues exactly one outbound
provider request (`autoUpdater.checkForUpdates()`), so the overlapping pair
causes exactly one provider request. -/
theorem check_dedup_single_request :
    (∀ s : UMState, s.isChecking = true → umCheckBegin s = (false, s)) ∧
    (∀ s : UMState, s.isChecking = false →
      (umCheckBegin s).1 = true ∧
      (umCheckBegin (umCheckBegin s).2).1 = false ∧
      (umCheckBegin (umCheckBegin s).2).2 = (umCheckBegin s).2 ∧
      (umCheckFinish (umCheckBegin (umCheckBegin s).2).2).ipcCalls = s.ipcCalls + 1 ∧
      (umCheckFinish (umCheckBegin (umCheckBegin s).2).2).isChecking = false) ∧
    (∀ (pc : Except String Unit) (v : String),
      (checkForUpdatesHandler false pc v).2 = 1) := by
  refine ⟨?_, ?_, ?_⟩
  · intro s h
    simp [umCheckBegin, h]
  · intro s h
    simp [umCheckBegin, umCheckFinish, h]
  · intro pc v
    cases pc <;> rfl

/-- Witness for C5: the overlap scenario from the idle renderer state, and a
duplicate call against the busy state. -/
theorem check_dedup_single_request_witness :
    umCheckBegin umBusy = (false, umBusy) ∧
    (umCheckFinish (umCheckBegin (umCheckBegin umIdle).2).2).ipcCalls = umIdle.ipcCalls + 1 ∧
    (checkForUpdatesHandler false (Except.ok ()) "0.1.0").2 = 1 :=
  ⟨check_dedup_single_request.1 umBusy rfl,
   (check_dedup_single_request.2.1 umIdle rfl).2.2.2.1,
   check_dedup_single_request.2.2 (Except.ok ()) "0.1.0"⟩

/-- C6 counterexample: after the ordinary flow `update-available` then
`update-downloaded` the update status is Downloaded — not Available — yet
`download-update` returns a success acknowledgement, because its guard reads
the `updateAvailable` flag, which is never cleared when the download
completes.  The claim says any `downloadUpdate()` outside status Available
fails with an invalid-state error. -/
theorem download_in_downloaded_state_counterexample :
    statusAfter downloadedTrace = UpdateStatus.downloaded ∧
    statusAfter downloadedTrace ≠ UpdateStatus.available ∧
    (downloadUpdateHandler false (applyUpdEvents UpdFlags.init downloadedTrace)).success = true ∧
    (downloadUpdateHandler false (applyUpdEvents UpdFlags.init downloadedTrace)).error = none := by
  decide

/-- C6 amended: the two handlers guard on the module-level flags, not on the
status.  `download-update` fails with an error result iff run in development
mode or with the `updateAvailable` flag unset, and acknowledges success
whenever the flag is set — including after the download has completed
(status Downloaded).  `install-update` succeeds, and calls
`quitAndInstall`, exactly when run in production with the `updateDownloaded`
flag set, and otherwise fails with an error result and no relaunch. -/
theorem update_handlers_flag_guards :
    ∀ (d : Bool) (f : UpdFlags),
      ((downloadUpdateHandler d f).success = true ↔ d = false ∧ f.updateAvailable = true) ∧
      ((downloadUpdateHandler d f).success = false →
        (downloadUpdateHandler d f).error.isSome = true) ∧
      ((installUpdateHandler d f).1.success = true ↔ d = false ∧ f.updateDownloaded = true) ∧
      ((installUpdateHandler d f).2 = (installUpdateHandler d f).1.success) ∧
      ((installUpdateHandler d f).1.success = false →
        (installUpdateHandler d f).1.error.isSome = true) := by
  intro d f
  obtain ⟨a, b⟩ := f
  cases d <;> cases a <;> cases b <;> refine ⟨?_, ?_, ?_, ?_, ?_⟩ <;>
    simp [downloadUpdateHandler, installUpdateHandler]

/-- Witness for C6 amended: a set `updateAvailable` flag makes
`download-update` succeed; an unset `updateDownloaded` flag makes
`install-update` fail with an error. -/
theorem update_handlers_flag_guards_witness :
    (downloadUpdateHandler false ⟨true, true⟩).success = true ∧
    (installUpdateHandler false ⟨true, false⟩).1.error.isSome = true :=
  ⟨(update_handlers_flag_guards false ⟨true, true⟩).1.mpr ⟨rfl, rfl⟩,
   (update_handlers_flag_guards false ⟨true, false⟩).2.2.2.2 rfl⟩

/-- C7: the `error` and `exit` handlers registered on the backend process
only flip readiness off.  For every host world and event payload, the
resulting world is the input with `backendReady := false`; in particular the
application is not quit, the window stays as it was, and the process handle,
memoized start operation and every other field are unchanged. -/
theorem crash_handlers_only_flip_ready :
    ∀ (w : HostWorld) (err : String) (code : Option Int) (sig : Option String),
      onProcessError err w = { w with backendReady := false } ∧
      onProcessExit code sig w = { w with backendReady := false } ∧
      (onProcessError err w).appQuitCalled = w.appQuitCalled ∧
      (onProcessError err w).windowOpen = w.windowOpen ∧
      (onProcessError err w).backendProcessSet = w.backendProcessSet ∧
      (onProcessError err w).backendStartupPromiseSet = w.backendStartupPromiseSet ∧
      (onProcessExit code sig w).appQuitCalled = w.appQuitCalled ∧
      (onProcessExit code sig w).windowOpen = w.windowOpen ∧
      (onProcessExit code sig w).backendProcessSet = w.backendProcessSet ∧
      (onProcessExit code sig w).backendStartupPromiseSet = w.backendStartupPromiseSet :=
  fun w err code sig => ⟨rfl, rfl, rfl, rfl, rfl, rfl, rfl, rfl, rfl, rfl⟩

/-- C8 counterexample: the claim says every bridge handler maps a non-2xx
backend response to `{success:false, error}`.  `test-backend` never inspects
`response.ok`: a 500 response whose body parses as JSON comes back as
`{success:true, data}`. -/
theorem test_backend_non2xx_counterexample :
    statusOk resp500.status = false ∧
    (testBackendHandler (Except.ok resp500)).success = true ∧
    (testBackendHandler (Except.ok resp500)).error = none := by
  decide

/-- C8 amended: both cited handlers are total functions into the uniform
envelope — a thrown fetch or JSON-parse error is always captured as
`{success:false, error:message}`, never propagated.  `upload-document`
additionally maps non-2xx responses to `{success:false, error: detail or
"Upload failed"}` and 2xx responses to `{success:true, data}`; `test-backend`
returns `{success:true, data}` for every response whose body parses as JSON,
non-2xx included. -/
theorem bridge_envelope_normalization :
    ∀ f : Except String HttpResponse,
      envelopeOk (testBackendHandler f) = true ∧
      envelopeOk (uploadDocumentHandler f) = true ∧
      (∀ m : String, f = .error m →
        testBackendHandler f = ⟨false, none, some m⟩ ∧
        uploadDocumentHandler f = ⟨false, none, some m⟩) ∧
      (∀ (r : HttpResponse) (d : JsonDoc), f = .ok r → r.body = some d →
        statusOk r.status = false →
        uploadDocumentHandler f = ⟨false, none, some (d.detail.getD "Upload failed")⟩ ∧
        testBackendHandler f = ⟨true, some d, none⟩) ∧
      (∀ (r : HttpResponse) (d : JsonDoc), f = .ok r → r.body = some d →
        statusOk r.status = true →
        uploadDocumentHandler f = ⟨true, some d, none⟩ ∧
        testBackendHandler f = ⟨true, some d, none⟩) := by
  intro f
  refine ⟨?_, ?_, ?_, ?_, ?_⟩
  · cases f with
    | error m => rfl
    | ok r =>
      cases hb : r.body <;> simp [testBackendHandler, envelopeOk, hb]
  · cases f with
    | error m => rfl
    | ok r =>
      cases hb : r.body with
      | none => simp [uploadDocumentHandler, envelopeOk, hb]
      | some d =>
        by_cases hs : statusOk r.status = true <;>
          simp [uploadDocumentHandler, envelopeOk, hb, hs]
  · intro m hm
    subst hm
    exact ⟨rfl, rfl⟩
  · intro r d hf hb hs
    subst hf
    constructor
    · simp [uploadDocumentHandler, hb, hs]
    · simp [testBackendHandler, hb]
  · intro r d hf hb hs
    subst hf
    constructor
    · simp [uploadDocumentHandler, hb, hs]
    · simp [testBackendHandler, hb]

/-- Witness for C8 amended: a rejected fetch is normalized into the failure
envelope, and the concrete 500 response drives `upload-document` to a
detail-bearing failure while `test-backend` reports success. -/
theorem bridge_envelope_normalization_witness :
    envelopeOk (testBackendHandler (Except.error "fetch failed")) = true ∧
    testBackendHandler (Except.error "fetch failed") = ⟨false, none, some "fetch failed"⟩ ∧
    uploadDocumentHandler (Except.ok resp500) =
      ⟨false, none, some "Internal Server Error"⟩ :=
  ⟨(bridge_envelope_normalization (Except.error "fetch failed")).1,
   ((bridge_envelope_normalization (Except.error "fetch failed")).2.2.1
      "fetch failed" rfl).1,
   ((bridge_envelope_normalization (Except.ok resp500)).2.2.2.1 resp500
      ⟨"detail body", some "Internal Server Error"⟩ rfl rfl (by decide)).1⟩

/-- C9 counterexample: registering listener 1 after listener 0 via
`onUpdaterMessage` does not replace listener 0 — `ipcRenderer.on` appends —
so a subsequent `updater-message` event with payload 7 is delivered to both
listeners, not only to the one registered last as the claim asserts. -/
theorem updater_listener_append_counterexample :
    deliverUpdaterMessage (onUpdaterMessage 1 (onUpdaterMessage 0 [])) 7 = [(0, 7), (1, 7)] ∧
    deliverUpdaterMessage (onUpdaterMessage 1 (onUpdaterMessage 0 [])) 7 ≠ [(1, 7)] := by
  decide

/-- C9 amended: `onUpdaterMessage` adds a listener without replacing any
previously registered one — after registering `a` and then `b`, an event is
delivered to every pre-existing listener and then to `a` and `b`, in
registration order — while `removeUpdaterListener` removes all listeners, so
afterwards no listener receives any further events. -/
theorem updater_listener_add_remove :
    ∀ (a b d : Nat) (ls : List Nat),
      deliverUpdaterMessage (onUpdaterMessage b (onUpdaterMessage a ls)) d =
        deliverUpdaterMessage ls d ++ [(a, d), (b, d)] ∧
      deliverUpdaterMessage (removeUpdaterListener ls) d = [] := by
  intro a b d ls
  constructor
  · simp [deliverUpdaterMessage, onUpdaterMessage]
  · rfl

end Covenantrix
